import Mathlib

/-!
Shallow embedding of the gesture-driven photo-gallery core:
the gesture classifier (`src/services/gestureRecognition.ts`),
the gesture stabilizer and hand tracker tick (`src/App.tsx`, HandTracker),
the application mode state machine and delete handler (`src/App.tsx`, App),
and the showcase scheduler (`src/components/PhotoCloud.tsx`, PhotoCloud useFrame).
Machine floats are modelled as real numbers; the JavaScript `%` operator and
`Math.atan2` are modelled explicitly.
-/

open Real

inductive GestureType
  | NONE
  | FIST
  | OPEN_PALM
  | PINCH
  | POINT
deriving DecidableEq

inductive AppMode
  | ASSEMBLED
  | DISPERSED
  | FOCUS
deriving DecidableEq

inductive SchedPhase
  | COOLDOWN
  | ACTIVE
deriving DecidableEq

structure Landmark where
  x : ℝ
  y : ℝ
  z : ℝ

instance : Inhabited Landmark := ⟨⟨0, 0, 0⟩⟩

structure HandState where
  gesture : GestureType
  position : ℝ × ℝ
  rotation : ℝ
  isPresent : Bool

structure PhotoData where
  id : String
  url : String
  aspectRatio : ℝ
  treePosition : ℝ × ℝ × ℝ
  scatterPosition : ℝ × ℝ × ℝ

instance : Inhabited PhotoData := ⟨⟨"", "", 1, (0, 0, 0), (0, 0, 0)⟩⟩

/-- 3D Euclidean distance between two landmarks
(`dist` in `src/services/gestureRecognition.ts`). -/
noncomputable def dist3 (p1 p2 : Landmark) : ℝ :=
  Real.sqrt ((p1.x - p2.x) ^ 2 + (p1.y - p2.y) ^ 2 + (p1.z - p2.z) ^ 2)

/-- Mean distance from the wrist (landmark 0) to the four non-thumb fingertips
(landmarks 8, 12, 16, 20), as computed in `detectGesture`. -/
noncomputable def avgTipDistToWrist (landmarks : List Landmark) : ℝ :=
  let wrist := landmarks.getD 0 default
  (0 + dist3 (landmarks.getD 8 default) wrist + dist3 (landmarks.getD 12 default) wrist +
      dist3 (landmarks.getD 16 default) wrist + dist3 (landmarks.getD 20 default) wrist) / 4

/-- `detectGesture` from `src/services/gestureRecognition.ts`: priority-ordered
classification FIST, then PINCH, then OPEN_PALM, else NONE; short samples give NONE. -/
noncomputable def detectGesture (landmarks : List Landmark) : GestureType :=
  if landmarks.length < 21 then GestureType.NONE
  else if avgTipDistToWrist landmarks < 0.4 then GestureType.FIST
  else if dist3 (landmarks.getD 4 default) (landmarks.getD 8 default) < 0.06 then
    GestureType.PINCH
  else if 0.5 < avgTipDistToWrist landmarks then GestureType.OPEN_PALM
  else GestureType.NONE

/-- `calculateHandRotation` from `src/services/gestureRecognition.ts`. -/
noncomputable def rotationEstimate (landmarks : List Landmark) : ℝ :=
  let centerX := ((landmarks.getD 0 default).x + (landmarks.getD 9 default).x) / 2
  (centerX - 0.5) * 2

/-- The stability refs of the HandTracker component in `src/App.tsx`:
`stableGestureRef`, `lastRawGestureRef`, `gestureConsistencyCount`. -/
structure TrackerState where
  stableGesture : GestureType
  lastRawGesture : GestureType
  gestureConsistencyCount : ℕ
deriving DecidableEq

/-- The gesture-stability update of `predictWebcam` in `src/App.tsx`:
equal raw label increments the consistency counter, a different one records the new
label and resets the counter to 1; once the counter reaches 2 the stable label
becomes the current raw label. -/
def stepStability (raw : GestureType) (s : TrackerState) : TrackerState :=
  let count := if raw = s.lastRawGesture then s.gestureConsistencyCount + 1 else 1
  { stableGesture := if 2 ≤ count then raw else s.stableGesture
    lastRawGesture := raw
    gestureConsistencyCount := count }

/-- The detection-handling part of `predictWebcam` in `src/App.tsx`: given the list of
detected hands (each a landmark list), update the stability refs and produce the
`HandState` passed to `onHandUpdate`.  An empty detection list performs the immediate
hard reset and emits the absent-hand state. -/
noncomputable def handleDetections (hands : List (List Landmark)) (s : TrackerState) :
    TrackerState × HandState :=
  match hands with
  | [] =>
    ( { stableGesture := GestureType.NONE
        lastRawGesture := GestureType.NONE
        gestureConsistencyCount := 0 }
    , { gesture := GestureType.NONE
        position := (0.5, 0.5)
        rotation := 0
        isPresent := false } )
  | landmarks :: _ =>
    let raw := detectGesture landmarks
    let rot := rotationEstimate landmarks
    let s2 := stepStability raw s
    ( s2
    , { gesture := s2.stableGesture
        position := (1 - (landmarks.getD 9 default).x, (landmarks.getD 9 default).y)
        rotation := rot
        isPresent := true } )

/-- The gesture-driven state of the App component in `src/App.tsx`:
`mode`, `focusId` and the round-robin cursor `nextPhotoIndex`. -/
structure ModeState where
  mode : AppMode
  focusId : Option String
  nextPhotoIndex : ℕ
deriving DecidableEq

/-- The gesture state-machine effect of `src/App.tsx` (the `useEffect` over
`handState`): FIST reassembles, OPEN_PALM disperses, PINCH in DISPERSED with no
focus selects the next photo round-robin and advances the cursor. -/
def gestureEffect (hand : HandState) (photos : List PhotoData) (s : ModeState) : ModeState :=
  if hand.isPresent = false then s
  else if hand.gesture = GestureType.FIST ∧ s.mode ≠ AppMode.ASSEMBLED then
    { mode := AppMode.ASSEMBLED
      focusId := none
      nextPhotoIndex := s.nextPhotoIndex }
  else if hand.gesture = GestureType.OPEN_PALM then
    if s.mode = AppMode.ASSEMBLED then { s with mode := AppMode.DISPERSED }
    else if s.mode = AppMode.FOCUS then
      { mode := AppMode.DISPERSED
        focusId := none
        nextPhotoIndex := s.nextPhotoIndex }
    else s
  else if hand.gesture = GestureType.PINCH ∧ s.mode = AppMode.DISPERSED then
    if s.focusId = none ∧ 0 < photos.length then
      { mode := AppMode.FOCUS
        focusId := some ((photos.getD (s.nextPhotoIndex % photos.length) default).id)
        nextPhotoIndex := s.nextPhotoIndex + 1 }
    else s
  else s

/-- `handleDeletePhoto` from `src/App.tsx`: remove the photo from the pool; if the
deleted photo is the current focus, drop to DISPERSED and clear the focus target. -/
def deletePhoto (pid : String) (photos : List PhotoData) (s : ModeState) :
    List PhotoData × ModeState :=
  ( photos.filter (fun p => p.id ≠ pid)
  , if s.focusId = some pid then
      { mode := AppMode.DISPERSED
        focusId := none
        nextPhotoIndex := s.nextPhotoIndex }
    else s )

/-- JavaScript truncation toward zero (`Math.trunc`, the rounding used by the
float `%` operator). -/
noncomputable def jtrunc (r : ℝ) : ℤ :=
  if r < 0 then ⌈r⌉ else ⌊r⌋

/-- The JavaScript float remainder operator `x % y`: `x - y * trunc (x / y)`. -/
noncomputable def jmod (x y : ℝ) : ℝ :=
  x - y * jtrunc (x / y)

/-- `Math.atan2 y x`. -/
noncomputable def atan2 (y x : ℝ) : ℝ :=
  if 0 < x then Real.arctan (y / x)
  else if x < 0 then
    (if 0 ≤ y then Real.arctan (y / x) + π else Real.arctan (y / x) - π)
  else if 0 < y then π / 2
  else if y < 0 then -(π / 2)
  else 0

/-- `ShowcaseParticipant` from `src/components/PhotoCloud.tsx`. -/
structure ShowcaseParticipant where
  id : String
  offsetAngle : ℝ
  launchTime : ℝ
  hasPresented : Bool
  originalSlotAngle : ℝ

/-- `ShowcaseSystemState` from `src/components/PhotoCloud.tsx`.  The
`Record<string, ShowcaseParticipant>` map is modelled as a list with distinct keys
kept in insertion order. -/
structure ShowcaseSystemState where
  active : List ShowcaseParticipant
  systemAngle : ℝ
  phase : SchedPhase
  cooldownUntil : ℝ
  lapCounter : ℕ

/-- Scheduler state of the PhotoCloud controller: the showcase system ref together
with the `prevSystemAngle` ref used for lap tracking. -/
structure SchedState where
  sys : ShowcaseSystemState
  prevSystemAngle : ℝ

/-- The angular distance to the presentation target `π/2` computed in the ACTIVE
loop of `src/components/PhotoCloud.tsx`: wrap the raw angle into `[0, 2π)`, take the
absolute difference from `π/2`, and fold to the shortest path. -/
noncomputable def presDist (raw : ℝ) : ℝ :=
  let myAngle := jmod raw (2 * π)
  let normAngle := jmod (myAngle + 2 * π) (2 * π)
  let d := |normAngle - π / 2|
  if π < d then 2 * π - d else d

/-- The return-alignment difference computed in the ACTIVE loop of
`src/components/PhotoCloud.tsx`: both the orbit angle and the slot world angle are
wrapped twice into `[0, 2π)` and the shortest-path difference is taken. -/
noncomputable def retDiff (orbitRaw slotRaw : ℝ) : ℝ :=
  let currentOrbit := jmod orbitRaw (2 * π)
  let slotWorld := jmod slotRaw (2 * π)
  let n1 := jmod (currentOrbit + 2 * π) (2 * π)
  let n2 := jmod (slotWorld + 2 * π) (2 * π)
  let d := |n1 - n2|
  if π < d then 2 * π - d else d

/-- `inPresentationZone` of the ACTIVE loop: some launched participant is within
0.4 radians of the target angle while at least 2 laps have been completed. -/
def zoneOf (time : ℝ) (lap : ℕ) (theta : ℝ) (ps : List ShowcaseParticipant) : Prop :=
  ∃ p ∈ ps, p.launchTime ≤ time ∧ presDist (theta + p.offsetAngle) < 0.4 ∧ 2 ≤ lap

/-- The two-entry participant map built at the COOLDOWN→ACTIVE transition of
`src/components/PhotoCloud.tsx`; a duplicate key would collapse to the later entry,
as in a JavaScript object literal. -/
noncomputable def mkShowcaseActive (p1 p2 : PhotoData) (time : ℝ) :
    List ShowcaseParticipant :=
  let a1 : ShowcaseParticipant :=
    { id := p1.id
      offsetAngle := 0
      launchTime := time
      hasPresented := false
      originalSlotAngle := atan2 p1.treePosition.1 p1.treePosition.2.2 }
  let a2 : ShowcaseParticipant :=
    { id := p2.id
      offsetAngle := π
      launchTime := time + 0.7
      hasPresented := false
      originalSlotAngle := atan2 p2.treePosition.1 p2.treePosition.2.2 }
  if p1.id = p2.id then [a2] else [a1, a2]

/-- The COOLDOWN branch of the showcase scheduler.  `idx1` stands for the random
draw `Math.floor(Math.random() * candidates.length)` and `theta0` for the random
initial angle `Math.random() * Math.PI * 2`. -/
noncomputable def tickCooldown (photos : List PhotoData) (focusId : Option String)
    (time : ℝ) (idx1 : ℕ) (theta0 : ℝ) (s : SchedState) : SchedState :=
  if s.sys.cooldownUntil < time then
    let candidates := photos.filter (fun p => focusId ≠ some p.id)
    if 2 ≤ candidates.length then
      let idx2a := (idx1 + candidates.length / 2) % candidates.length
      let idx2 := if idx1 = idx2a then (idx1 + 1) % candidates.length else idx2a
      let p1 := candidates.getD idx1 default
      let p2 := candidates.getD idx2 default
      { sys :=
          { active := mkShowcaseActive p1 p2 time
            systemAngle := theta0
            phase := SchedPhase.ACTIVE
            cooldownUntil := s.sys.cooldownUntil
            lapCounter := 0 }
        prevSystemAngle := theta0 }
    else s
  else s

open Classical in
/-- The ACTIVE branch of the showcase scheduler in `src/components/PhotoCloud.tsx`:
zone detection on the pre-update angle, speed selection, angle integration, lap
tracking against `prevSystemAngle`, presentation marking, and the return/removal
check with the COOLDOWN hand-back when the map empties. -/
noncomputable def tickActive (time delta spin : ℝ) (s : SchedState) : SchedState :=
  let sys := s.sys
  let zone := zoneOf time sys.lapCounter sys.systemAngle sys.active
  let speed : ℝ := if zone then 0.3 else 2.5
  let theta2 := sys.systemAngle + speed * delta
  let laps := ⌊theta2 / (2 * π)⌋
  let prevLaps := ⌊s.prevSystemAngle / (2 * π)⌋
  let lap2 := if prevLaps < laps then sys.lapCounter + 1 else sys.lapCounter
  let marked := sys.active.map (fun p =>
    if p.hasPresented = false ∧ p.launchTime ≤ time ∧ 2 ≤ lap2 ∧
        presDist (theta2 + p.offsetAngle) < 0.1 then
      { p with hasPresented := true }
    else p)
  let treeRot := jmod (time * 0.1 + spin) (2 * π)
  let keep := marked.filter (fun p =>
    ¬(p.hasPresented = true ∧ ¬zone ∧
        retDiff (theta2 + p.offsetAngle) (treeRot + p.originalSlotAngle) < 0.3))
  let emptied := keep.length < marked.length ∧ keep = []
  { sys :=
      { active := keep
        systemAngle := theta2
        phase := if emptied then SchedPhase.COOLDOWN else sys.phase
        cooldownUntil := if emptied then time + 6 else sys.cooldownUntil
        lapCounter := lap2 }
    prevSystemAngle := theta2 }

/-- One tick of the showcase scheduler logic in the `useFrame` of the PhotoCloud
controller: gated on `mode = ASSEMBLED` and a pool of at least 2 photos, otherwise
the forcible reset branch that clears the participants and keeps pushing
`cooldownUntil` to `time + 6`. -/
noncomputable def schedulerTick (mode : AppMode) (photos : List PhotoData)
    (focusId : Option String) (time delta spin : ℝ) (idx1 : ℕ) (theta0 : ℝ)
    (s : SchedState) : SchedState :=
  if mode = AppMode.ASSEMBLED ∧ 2 ≤ photos.length then
    match s.sys.phase with
    | SchedPhase.COOLDOWN => tickCooldown photos focusId time idx1 theta0 s
    | SchedPhase.ACTIVE => tickActive time delta spin s
  else
    { sys :=
        { active := []
          systemAngle := s.sys.systemAngle
          phase := SchedPhase.COOLDOWN
          cooldownUntil := time + 6
          lapCounter := 0 }
      prevSystemAngle := s.prevSystemAngle }

/-- The cardinality invariant of the scheduler that the code actually maintains:
at most two active participants, and none while in COOLDOWN. -/
def SchedInv (s : SchedState) : Prop :=
  s.sys.active.length ≤ 2 ∧ (s.sys.phase = SchedPhase.COOLDOWN → s.sys.active = [])

/-- A closed-fist landmark sample: 21 coincident points, so every tip-to-wrist
distance is 0. -/
def fistSample : List Landmark :=
  [⟨0, 0, 0⟩, ⟨0, 0, 0⟩, ⟨0, 0, 0⟩, ⟨0, 0, 0⟩, ⟨0, 0, 0⟩, ⟨0, 0, 0⟩, ⟨0, 0, 0⟩,
   ⟨0, 0, 0⟩, ⟨0, 0, 0⟩, ⟨0, 0, 0⟩, ⟨0, 0, 0⟩, ⟨0, 0, 0⟩, ⟨0, 0, 0⟩, ⟨0, 0, 0⟩,
   ⟨0, 0, 0⟩, ⟨0, 0, 0⟩, ⟨0, 0, 0⟩, ⟨0, 0, 0⟩, ⟨0, 0, 0⟩, ⟨0, 0, 0⟩, ⟨0, 0, 0⟩]

/-- A concrete photo record. -/
def samplePhoto1 : PhotoData :=
  { id := "p0", url := "u0", aspectRatio := 1, treePosition := (0, 0, 1)
    scatterPosition := (0, 0, 0) }

/-- A second concrete photo record with a distinct id. -/
def samplePhoto2 : PhotoData :=
  { id := "p1", url := "u1", aspectRatio := 1, treePosition := (1, 0, 0)
    scatterPosition := (0, 0, 0) }

/-- A present hand making a stable PINCH. -/
def samplePinchHand : HandState :=
  { gesture := GestureType.PINCH, position := (0.5, 0.5), rotation := 0
    isPresent := true }

/-- A showcase participant that has already presented, sitting at orbit offset 0
with home slot angle 0 (the slot of `samplePhoto1`). -/
def cexPartA : ShowcaseParticipant :=
  { id := "p0", offsetAngle := 0, launchTime := 0, hasPresented := true
    originalSlotAngle := 0 }

/-- The staggered partner of `cexPartA`: offset π, not yet presented. -/
noncomputable def cexPartB : ShowcaseParticipant :=
  { id := "p1", offsetAngle := π, launchTime := 0, hasPresented := false
    originalSlotAngle := 0 }

/-- An ACTIVE scheduler state holding exactly the two participants `cexPartA` and
`cexPartB`, with `systemAngle = 0` after at least 5 counted laps. -/
noncomputable def cexSchedState : SchedState :=
  { sys :=
      { active := [cexPartA, cexPartB]
        systemAngle := 0
        phase := SchedPhase.ACTIVE
        cooldownUntil := 6
        lapCounter := 5 }
    prevSystemAngle := 0 }

/-- An ACTIVE scheduler state whose single participant has not launched yet,
with `systemAngle = 6`, just below `2π`. -/
noncomputable def lapSkipState : SchedState :=
  { sys :=
      { active := [{ id := "p1", offsetAngle := π, launchTime := 0.5
                     hasPresented := false, originalSlotAngle := 0 }]
        systemAngle := 6
        phase := SchedPhase.ACTIVE
        cooldownUntil := 0
        lapCounter := 0 }
    prevSystemAngle := 6 }

/-- An ACTIVE scheduler state with no launched participant, angle 0, used to
exercise a single plain tick. -/
def lapWitnessState : SchedState :=
  { sys :=
      { active := []
        systemAngle := 0
        phase := SchedPhase.ACTIVE
        cooldownUntil := 0
        lapCounter := 0 }
    prevSystemAngle := 0 }

/-- The scheduler state at first mount of the PhotoCloud controller. -/
def initialSchedState : SchedState :=
  { sys :=
      { active := []
        systemAngle := 0
        phase := SchedPhase.COOLDOWN
        cooldownUntil := 6
        lapCounter := 0 }
    prevSystemAngle := 0 }

/-! ## Helper lemmas -/

lemma jmod_of_lt {x y : ℝ} (h0 : 0 ≤ x) (hxy : x < y) : jmod x y = x := by
  have hy : 0 < y := lt_of_le_of_lt h0 hxy
  have h1 : 0 ≤ x / y := div_nonneg h0 hy.le
  have h2 : x / y < 1 := (div_lt_one hy).2 hxy
  have ht : jtrunc (x / y) = 0 := by
    rw [jtrunc, if_neg (not_lt.2 h1)]
    exact Int.floor_eq_zero_iff.2 ⟨h1, h2⟩
  rw [jmod, ht]
  push_cast
  ring

lemma jmod_add_right {x y : ℝ} (h0 : 0 ≤ x) (hxy : x < y) : jmod (x + y) y = x := by
  have hy : 0 < y := lt_of_le_of_lt h0 hxy
  have h1 : 0 ≤ x / y := div_nonneg h0 hy.le
  have h2 : x / y < 1 := (div_lt_one hy).2 hxy
  have hdiv : (x + y) / y = x / y + 1 := by field_simp
  have ht : jtrunc ((x + y) / y) = 1 := by
    rw [jtrunc, hdiv, if_neg (by linarith : ¬(x / y + 1 < 0)), Int.floor_add_one,
      Int.floor_eq_zero_iff.2 ⟨h1, h2⟩]
    norm_num
  rw [jmod, ht]
  push_cast
  ring

lemma presDist_zero : presDist 0 = π / 2 := by
  have h1 : jmod 0 (2 * π) = 0 := jmod_of_lt le_rfl Real.two_pi_pos
  have h2 : jmod (0 + 2 * π) (2 * π) = 0 := jmod_add_right le_rfl Real.two_pi_pos
  have h3 : |(0 : ℝ) - π / 2| = π / 2 := by
    rw [zero_sub, abs_neg, abs_of_pos (by positivity)]
  rw [presDist]
  simp only [h1, h2, h3]
  rw [if_neg (by linarith [Real.pi_gt_three] : ¬(π < π / 2))]

lemma presDist_pi : presDist π = π / 2 := by
  have hπ : (0 : ℝ) ≤ π := Real.pi_pos.le
  have hlt : π < 2 * π := by linarith [Real.pi_pos]
  have h1 : jmod π (2 * π) = π := jmod_of_lt hπ hlt
  have h2 : jmod (π + 2 * π) (2 * π) = π := jmod_add_right hπ hlt
  have h3 : |π - π / 2| = π / 2 := by
    rw [show π - π / 2 = π / 2 by ring, abs_of_pos (by positivity)]
  rw [presDist]
  simp only [h1, h2, h3]
  rw [if_neg (by linarith [Real.pi_gt_three] : ¬(π < π / 2))]

lemma retDiff_zero_zero : retDiff 0 0 = 0 := by
  have h1 : jmod 0 (2 * π) = 0 := jmod_of_lt le_rfl Real.two_pi_pos
  have h2 : jmod (0 + 2 * π) (2 * π) = 0 := jmod_add_right le_rfl Real.two_pi_pos
  rw [retDiff]
  simp only [h1, h2, sub_zero, abs_zero]
  rw [if_neg (by linarith [Real.pi_pos] : ¬(π < 0))]

lemma floor_step {a b c : ℝ} (hc : 0 < c) (hab : a ≤ b) (hlt : b - a < c) :
    ⌊b / c⌋ = ⌊a / c⌋ ∨ ⌊b / c⌋ = ⌊a / c⌋ + 1 := by
  have h1 : ⌊a / c⌋ ≤ ⌊b / c⌋ := Int.floor_le_floor (by gcongr)
  have hbc : b / c < a / c + 1 := by
    have : (b - a) / c < 1 := (div_lt_one hc).2 hlt
    have : b / c - a / c < 1 := by rwa [← div_sub_div_same] at this
    linarith
  have h2 : ⌊b / c⌋ ≤ ⌊a / c⌋ + 1 := by
    have := Int.floor_le_floor hbc.le
    rwa [Int.floor_add_one] at this
  omega

/-! ## Claim theorems -/

/-- C3: every landmark sample of at least 21 points whose mean distance from the
wrist to the four non-thumb fingertips is below 0.4 is classified FIST, regardless
of the thumb-tip-to-index-tip distance, because the FIST check precedes the PINCH
check in `detectGesture`. -/
theorem detectGesture_fist_priority (landmarks : List Landmark)
    (h21 : 21 ≤ landmarks.length) (hav : avgTipDistToWrist landmarks < 0.4) :
    detectGesture landmarks = GestureType.FIST := by
  rw [detectGesture, if_neg (not_lt.2 h21), if_pos hav]

theorem detectGesture_fist_priority_witness :
    21 ≤ fistSample.length ∧ avgTipDistToWrist fistSample < 0.4 ∧
      detectGesture fistSample = GestureType.FIST := by
  have h21 : 21 ≤ fistSample.length := by simp [fistSample]
  have hz : dist3 ⟨0, 0, 0⟩ ⟨0, 0, 0⟩ = 0 := by simp [dist3]
  have hav : avgTipDistToWrist fistSample < 0.4 := by
    simp only [avgTipDistToWrist, fistSample]
    norm_num [hz]
  exact ⟨h21, hav, detectGesture_fist_priority fistSample h21 hav⟩

/-- C4: one stability tick increments the consistency counter on a repeated raw
label and resets it to 1 (recording the new label) on a changed one; the stable
label is overwritten with the raw label exactly when the updated counter reaches 2,
so a single-tick flip never changes the stable label while two consecutive
identical raw labels always install that label. -/
theorem stepStability_spec (raw : GestureType) (s : TrackerState) :
    ((raw = s.lastRawGesture →
        (stepStability raw s).gestureConsistencyCount = s.gestureConsistencyCount + 1) ∧
      (raw ≠ s.lastRawGesture → (stepStability raw s).gestureConsistencyCount = 1) ∧
      (stepStability raw s).lastRawGesture = raw) ∧
    ((stepStability raw s).stableGesture =
        if 2 ≤ (stepStability raw s).gestureConsistencyCount then raw
        else s.stableGesture) ∧
    ((stepStability raw s).stableGesture ≠ s.stableGesture →
      raw = s.lastRawGesture ∧ (stepStability raw s).stableGesture = raw) ∧
    (raw ≠ s.lastRawGesture → (stepStability raw s).stableGesture = s.stableGesture) ∧
    (stepStability raw (stepStability raw s)).stableGesture = raw := by
  refine ⟨⟨fun h => by simp [stepStability, h], fun h => by simp [stepStability, h],
      by simp [stepStability]⟩, rfl, ?_, fun h => by simp [stepStability, h], ?_⟩
  · intro hne
    by_cases h : raw = s.lastRawGesture
    · refine ⟨h, ?_⟩
      by_cases h2 : 2 ≤ s.gestureConsistencyCount + 1
      · simp [stepStability, h, h2]
      · exact absurd (by simp [stepStability, h, h2]) hne
    · exact absurd (by simp [stepStability, h]) hne
  · by_cases h : raw = s.lastRawGesture
    · have h2 : 2 ≤ s.gestureConsistencyCount + 1 + 1 := by omega
      simp [stepStability, h, h2]
    · simp [stepStability, h]

theorem stepStability_spec_witness :
    (stepStability GestureType.FIST
        ⟨GestureType.NONE, GestureType.FIST, 1⟩).gestureConsistencyCount = 1 + 1 ∧
    (stepStability GestureType.PINCH
        ⟨GestureType.NONE, GestureType.FIST, 3⟩).stableGesture = GestureType.NONE ∧
    (stepStability GestureType.OPEN_PALM (stepStability GestureType.OPEN_PALM
        ⟨GestureType.NONE, GestureType.FIST, 3⟩)).stableGesture =
      GestureType.OPEN_PALM := by
  refine ⟨?_, ?_, ?_⟩
  · exact (stepStability_spec GestureType.FIST ⟨GestureType.NONE, GestureType.FIST, 1⟩).1.1 rfl
  · exact (stepStability_spec GestureType.PINCH
      ⟨GestureType.NONE, GestureType.FIST, 3⟩).2.2.2.1 (by decide)
  · exact (stepStability_spec GestureType.OPEN_PALM
      ⟨GestureType.NONE, GestureType.FIST, 3⟩).2.2.2.2

/-- C5: a tick with no detected hand immediately resets the stability refs
(counter 0, last raw label NONE, stable label NONE) and emits the absent-hand
state: gesture NONE, position (0.5, 0.5), rotation 0, isPresent false. -/
theorem handLoss_hard_reset (s : TrackerState) :
    handleDetections [] s =
      ( { stableGesture := GestureType.NONE
          lastRawGesture := GestureType.NONE
          gestureConsistencyCount := 0 }
      , { gesture := GestureType.NONE
          position := (0.5, 0.5)
          rotation := 0
          isPresent := false } ) := rfl

/-- C6: with a present hand making a stable PINCH while the mode is DISPERSED and
no focus is set, a non-empty pool moves the mode to FOCUS, selects the photo at
index cursor mod pool size and advances the cursor by exactly 1; an empty pool
leaves the state unchanged. -/
theorem pinch_focus_select (hand : HandState) (photos : List PhotoData) (s : ModeState)
    (hp : hand.isPresent = true) (hg : hand.gesture = GestureType.PINCH)
    (hm : s.mode = AppMode.DISPERSED) (hf : s.focusId = none) :
    (photos ≠ [] →
      gestureEffect hand photos s =
        { mode := AppMode.FOCUS
          focusId := some ((photos.getD (s.nextPhotoIndex % photos.length) default).id)
          nextPhotoIndex := s.nextPhotoIndex + 1 }) ∧
    (photos = [] → gestureEffect hand photos s = s) := by
  constructor
  · intro hne
    have hlen : 0 < photos.length := List.length_pos.2 hne
    rw [gestureEffect, if_neg (by simp [hp]), if_neg (by simp [hg]), if_neg (by simp [hg]),
      if_pos ⟨hg, hm⟩, if_pos ⟨hf, hlen⟩]
  · intro he
    rw [gestureEffect, if_neg (by simp [hp]), if_neg (by simp [hg]), if_neg (by simp [hg]),
      if_pos ⟨hg, hm⟩, if_neg (by simp [he])]

theorem pinch_focus_select_witness :
    gestureEffect samplePinchHand [samplePhoto1, samplePhoto2]
        { mode := AppMode.DISPERSED, focusId := none, nextPhotoIndex := 0 } =
      { mode := AppMode.FOCUS, focusId := some "p0", nextPhotoIndex := 1 } := by
  have h := (pinch_focus_select samplePinchHand [samplePhoto1, samplePhoto2]
      { mode := AppMode.DISPERSED, focusId := none, nextPhotoIndex := 0 }
      rfl rfl rfl rfl).1 (by simp)
  rw [h]
  simp [samplePhoto1]

/-- C9: `handleDeletePhoto` removes the photo from the pool; deleting the currently
focused photo drops the mode to DISPERSED and clears the focus target, while
deleting any other photo leaves mode and focus untouched — so the delete operation
itself can mutate the application mode. -/
theorem deletePhoto_mode_effect (pid : String) (photos : List PhotoData) (s : ModeState) :
    (s.focusId = some pid →
      (deletePhoto pid photos s).2 =
        { mode := AppMode.DISPERSED
          focusId := none
          nextPhotoIndex := s.nextPhotoIndex }) ∧
    (s.focusId ≠ some pid → (deletePhoto pid photos s).2 = s) ∧
    (deletePhoto pid photos s).1 = photos.filter (fun p => p.id ≠ pid) := by
  exact ⟨fun h => by simp [deletePhoto, h], fun h => by simp [deletePhoto, h], rfl⟩

theorem deletePhoto_mode_effect_witness :
    (deletePhoto "p0" [samplePhoto1, samplePhoto2]
        ⟨AppMode.FOCUS, some "p0", 3⟩).2 = ⟨AppMode.DISPERSED, none, 3⟩ ∧
    (deletePhoto "p0" [samplePhoto1, samplePhoto2]
        ⟨AppMode.FOCUS, some "p1", 3⟩).2 = ⟨AppMode.FOCUS, some "p1", 3⟩ := by
  exact ⟨(deletePhoto_mode_effect "p0" [samplePhoto1, samplePhoto2] _).1 rfl,
    (deletePhoto_mode_effect "p0" [samplePhoto1, samplePhoto2] _).2.1 (by decide)⟩

/-- C10: the round-robin cursor only ever stays or advances by 1 on a gesture tick,
is untouched by deletion, and whenever the pool is non-empty the PINCH selection
index cursor mod pool size is strictly within bounds, so the selected photo is an
element of the current pool for every cursor value. -/
theorem cursor_round_robin_safe (hand : HandState) (photos : List PhotoData)
    (s : ModeState) (pid : String) :
    ((gestureEffect hand photos s).nextPhotoIndex = s.nextPhotoIndex ∨
      (gestureEffect hand photos s).nextPhotoIndex = s.nextPhotoIndex + 1) ∧
    (deletePhoto pid photos s).2.nextPhotoIndex = s.nextPhotoIndex ∧
    (photos ≠ [] →
      s.nextPhotoIndex % photos.length < photos.length ∧
      photos.getD (s.nextPhotoIndex % photos.length) default ∈ photos) := by
  refine ⟨?_, ?_, fun hne => ?_⟩
  · rw [gestureEffect]
    split_ifs <;> simp
  · rw [deletePhoto]
    split_ifs <;> simp
  · have hlen : 0 < photos.length := List.length_pos.2 hne
    have hm : s.nextPhotoIndex % photos.length < photos.length := Nat.mod_lt _ hlen
    refine ⟨hm, ?_⟩
    rw [List.getD_eq_getElem photos default hm]
    exact List.getElem_mem hm

theorem cursor_round_robin_safe_witness :
    7 % 2 < 2 ∧
      [samplePhoto1, samplePhoto2].getD (7 % 2) default ∈ [samplePhoto1, samplePhoto2] := by
  exact (cursor_round_robin_safe samplePinchHand [samplePhoto1, samplePhoto2]
    ⟨AppMode.DISPERSED, none, 7⟩ "x").2.2 (by simp)

lemma mkShowcaseActive_length_le (p1 p2 : PhotoData) (t : ℝ) :
    (mkShowcaseActive p1 p2 t).length ≤ 2 := by
  simp only [mkShowcaseActive]
  split_ifs <;> simp

lemma tickCooldown_inv {photos : List PhotoData} {focusId : Option String}
    {time : ℝ} {idx1 : ℕ} {theta0 : ℝ} {s : SchedState} (h : SchedInv s) :
    SchedInv (tickCooldown photos focusId time idx1 theta0 s) := by
  simp only [tickCooldown]
  by_cases ht : s.sys.cooldownUntil < time
  · rw [if_pos ht]
    by_cases hc : 2 ≤ (photos.filter (fun p => focusId ≠ some p.id)).length
    · rw [if_pos hc]
      exact ⟨mkShowcaseActive_length_le _ _ _, fun hph => absurd hph (by simp)⟩
    · rw [if_neg hc]
      exact h
  · rw [if_neg ht]
    exact h

lemma tickActive_inv {time delta spin : ℝ} {s : SchedState}
    (hph : s.sys.phase = SchedPhase.ACTIVE) (hlen : s.sys.active.length ≤ 2) :
    SchedInv (tickActive time delta spin s) := by
  classical
  simp only [tickActive]
  constructor
  · refine le_trans (List.length_filter_le _ _) ?_
    rw [List.length_map]
    exact hlen
  · intro h2
    rcases ite_eq_iff.1 h2 with ⟨hem, -⟩ | ⟨-, hph2⟩
    · exact hem.2
    · rw [hph] at hph2
      exact absurd hph2 (by simp)

lemma tickActive_lap {time delta spin : ℝ} {s : SchedState}
    (hsync : s.prevSystemAngle = s.sys.systemAngle)
    (hd : 0 ≤ delta) (hsmall : 5 / 2 * delta < 2 * π) :
    s.sys.systemAngle ≤ (tickActive time delta spin s).sys.systemAngle ∧
    (tickActive time delta spin s).sys.systemAngle - s.sys.systemAngle < 2 * π ∧
    ((⌊(tickActive time delta spin s).sys.systemAngle / (2 * π)⌋ =
          ⌊s.sys.systemAngle / (2 * π)⌋ ∧
        (tickActive time delta spin s).sys.lapCounter = s.sys.lapCounter) ∨
      (⌊(tickActive time delta spin s).sys.systemAngle / (2 * π)⌋ =
          ⌊s.sys.systemAngle / (2 * π)⌋ + 1 ∧
        (tickActive time delta spin s).sys.lapCounter = s.sys.lapCounter + 1)) := by
  classical
  simp only [tickActive]
  set speed :=
    if zoneOf time s.sys.lapCounter s.sys.systemAngle s.sys.active then (0.3 : ℝ)
    else 2.5 with hspeed
  have hsp0 : 0 ≤ speed := by
    rw [hspeed]
    split_ifs <;> norm_num
  have hsple : speed ≤ 5 / 2 := by
    rw [hspeed]
    split_ifs <;> norm_num
  have h1 : 0 ≤ speed * delta := mul_nonneg hsp0 hd
  have h2 : speed * delta < 2 * π :=
    lt_of_le_of_lt (mul_le_mul_of_nonneg_right hsple hd) hsmall
  refine ⟨by linarith, by linarith, ?_⟩
  rcases floor_step Real.two_pi_pos
      (by linarith : s.sys.systemAngle ≤ s.sys.systemAngle + speed * delta)
      (by linarith : s.sys.systemAngle + speed * delta - s.sys.systemAngle < 2 * π) with
    hfl | hfl
  · left
    refine ⟨hfl, ?_⟩
    rw [hsync, hfl, if_neg (lt_irrefl _)]
  · right
    refine ⟨hfl, ?_⟩
    rw [hsync, hfl, if_pos (by omega)]

lemma floor_135_div_two_pi : ⌊(13.5 : ℝ) / (2 * π)⌋ = 2 := by
  rw [Int.floor_eq_iff]
  constructor
  · rw [le_div_iff Real.two_pi_pos]
    push_cast
    nlinarith [Real.pi_lt_d2]
  · rw [div_lt_iff Real.two_pi_pos]
    push_cast
    nlinarith [Real.pi_gt_three]

lemma floor_6_div_two_pi : ⌊(6 : ℝ) / (2 * π)⌋ = 0 := by
  refine Int.floor_eq_zero_iff.2 ⟨by positivity, ?_⟩
  rw [div_lt_one Real.two_pi_pos]
  nlinarith [Real.pi_gt_three]

/-- C8: on any tick where the mode is not ASSEMBLED or the pool has fewer than 2
photos, the scheduler is forcibly reset: participants cleared, phase COOLDOWN,
lapCounter 0, and cooldownUntil pushed to now + 6, so no participant survives
outside ASSEMBLED and re-entering ASSEMBLED always faces a fresh 6-unit wait. -/
theorem scheduler_forced_reset (mode : AppMode) (photos : List PhotoData)
    (focusId : Option String) (time delta spin : ℝ) (idx1 : ℕ) (theta0 : ℝ)
    (s : SchedState) (h : ¬(mode = AppMode.ASSEMBLED ∧ 2 ≤ photos.length)) :
    schedulerTick mode photos focusId time delta spin idx1 theta0 s =
      { sys :=
          { active := []
            systemAngle := s.sys.systemAngle
            phase := SchedPhase.COOLDOWN
            cooldownUntil := time + 6
            lapCounter := 0 }
        prevSystemAngle := s.prevSystemAngle } := by
  rw [schedulerTick, if_neg h]

theorem scheduler_forced_reset_witness :
    ¬(AppMode.DISPERSED = AppMode.ASSEMBLED ∧ 2 ≤ ([] : List PhotoData).length) ∧
    schedulerTick AppMode.DISPERSED [] none 10 1 0 0 0 cexSchedState =
      { sys :=
          { active := []
            systemAngle := cexSchedState.sys.systemAngle
            phase := SchedPhase.COOLDOWN
            cooldownUntil := 10 + 6
            lapCounter := 0 }
        prevSystemAngle := cexSchedState.prevSystemAngle } := by
  exact ⟨by simp, scheduler_forced_reset AppMode.DISPERSED [] none 10 1 0 0 0 cexSchedState
    (by simp)⟩

/-- C1 (amended): the per-tick invariant the scheduler actually maintains is that
`activeParticipants` has cardinality at most 2 in every phase — 2 at launch, then
possibly 1 after the first participant realigns and returns — and cardinality 0
whenever phase = COOLDOWN. -/
theorem scheduler_card_invariant (mode : AppMode) (photos : List PhotoData)
    (focusId : Option String) (time delta spin : ℝ) (idx1 : ℕ) (theta0 : ℝ)
    (s : SchedState) (h : SchedInv s) :
    SchedInv (schedulerTick mode photos focusId time delta spin idx1 theta0 s) := by
  rw [schedulerTick]
  split_ifs with hg
  · cases hp : s.sys.phase
    · exact tickCooldown_inv h
    · exact tickActive_inv hp h.1
  · exact ⟨by simp, fun _ => rfl⟩

theorem scheduler_card_invariant_witness :
    SchedInv initialSchedState ∧
      SchedInv (schedulerTick AppMode.ASSEMBLED [samplePhoto1, samplePhoto2] none 1 1 0 0 0
        initialSchedState) := by
  have h0 : SchedInv initialSchedState := ⟨by simp [initialSchedState], fun _ => rfl⟩
  exact ⟨h0, scheduler_card_invariant _ _ _ _ _ _ _ _ _ h0⟩

/-- C2 (amended): on an ACTIVE tick whose angle increment stays below 2π — true in
particular for delta-time steps 0.016 and 0.1, since the orbital speed never
exceeds 2.5 — the scheduler advances `systemAngle` monotonically by less than 2π
and increments `lapCounter` by exactly 1 when `⌊systemAngle/2π⌋` grows (i.e. when a
multiple of 2π is crossed) and by 0 otherwise.  A single tick whose increment
exceeds 2π still adds only 1 (see the counterexample), so lap counting is not
independent of arbitrary step sizes. -/
theorem lapCounter_single_step (mode : AppMode) (photos : List PhotoData)
    (focusId : Option String) (time delta spin : ℝ) (idx1 : ℕ) (theta0 : ℝ)
    (s : SchedState) (hmode : mode = AppMode.ASSEMBLED) (hlen : 2 ≤ photos.length)
    (hphase : s.sys.phase = SchedPhase.ACTIVE)
    (hsync : s.prevSystemAngle = s.sys.systemAngle)
    (hd : 0 ≤ delta) (hsmall : 5 / 2 * delta < 2 * π) :
    s.sys.systemAngle ≤
        (schedulerTick mode photos focusId time delta spin idx1 theta0 s).sys.systemAngle ∧
    (schedulerTick mode photos focusId time delta spin idx1 theta0 s).sys.systemAngle -
        s.sys.systemAngle < 2 * π ∧
    ((⌊(schedulerTick mode photos focusId time delta spin idx1 theta0 s).sys.systemAngle /
            (2 * π)⌋ = ⌊s.sys.systemAngle / (2 * π)⌋ ∧
        (schedulerTick mode photos focusId time delta spin idx1 theta0 s).sys.lapCounter =
          s.sys.lapCounter) ∨
      (⌊(schedulerTick mode photos focusId time delta spin idx1 theta0 s).sys.systemAngle /
            (2 * π)⌋ = ⌊s.sys.systemAngle / (2 * π)⌋ + 1 ∧
        (schedulerTick mode photos focusId time delta spin idx1 theta0 s).sys.lapCounter =
          s.sys.lapCounter + 1)) := by
  subst hmode
  have hred : schedulerTick AppMode.ASSEMBLED photos focusId time delta spin idx1 theta0 s =
      tickActive time delta spin s := by
    rw [schedulerTick, if_pos ⟨rfl, hlen⟩, hphase]
  rw [hred]
  exact tickActive_lap hsync hd hsmall

theorem lapCounter_single_step_witness :
    5 / 2 * (1 : ℝ) < 2 * π ∧
    ((⌊(schedulerTick AppMode.ASSEMBLED [samplePhoto1, samplePhoto2] none 0 1 0 0 0
            lapWitnessState).sys.systemAngle / (2 * π)⌋ =
          ⌊lapWitnessState.sys.systemAngle / (2 * π)⌋ ∧
        (schedulerTick AppMode.ASSEMBLED [samplePhoto1, samplePhoto2] none 0 1 0 0 0
            lapWitnessState).sys.lapCounter = lapWitnessState.sys.lapCounter) ∨
      (⌊(schedulerTick AppMode.ASSEMBLED [samplePhoto1, samplePhoto2] none 0 1 0 0 0
            lapWitnessState).sys.systemAngle / (2 * π)⌋ =
          ⌊lapWitnessState.sys.systemAngle / (2 * π)⌋ + 1 ∧
        (schedulerTick AppMode.ASSEMBLED [samplePhoto1, samplePhoto2] none 0 1 0 0 0
            lapWitnessState).sys.lapCounter = lapWitnessState.sys.lapCounter + 1)) := by
  have hs : 5 / 2 * (1 : ℝ) < 2 * π := by nlinarith [Real.pi_gt_three]
  exact ⟨hs, (lapCounter_single_step AppMode.ASSEMBLED [samplePhoto1, samplePhoto2] none 0 1 0
    0 0 lapWitnessState rfl (by norm_num) rfl rfl (by norm_num) hs).2.2⟩

/-- C2 counterexample: a single ACTIVE tick with non-negative delta-time 3 takes
`systemAngle` from 6 to 13.5, crossing the two multiples 2π and 4π of 2π
(the floor of systemAngle/2π jumps by 2), yet `lapCounter` increases only by 1 —
so lapCounter does not increment once per crossing for every non-negative step,
and a coarser step over the same elapsed time loses a lap. -/
theorem lapCounter_skip_cex :
    lapSkipState.sys.systemAngle = 6 ∧
    (schedulerTick AppMode.ASSEMBLED [samplePhoto1, samplePhoto2] none 0 3 0 0 0
        lapSkipState).sys.systemAngle = 13.5 ∧
    ⌊(13.5 : ℝ) / (2 * π)⌋ = ⌊(6 : ℝ) / (2 * π)⌋ + 2 ∧
    (schedulerTick AppMode.ASSEMBLED [samplePhoto1, samplePhoto2] none 0 3 0 0 0
        lapSkipState).sys.lapCounter = lapSkipState.sys.lapCounter + 1 := by
  classical
  have hzone : ¬ zoneOf 0 lapSkipState.sys.lapCounter lapSkipState.sys.systemAngle
      lapSkipState.sys.active := by
    rintro ⟨p, hp, -, -, hlap⟩
    rw [show lapSkipState.sys.lapCounter = 0 from rfl] at hlap
    omega
  have hS5 : lapSkipState.sys.phase = SchedPhase.ACTIVE := rfl
  have hred : schedulerTick AppMode.ASSEMBLED [samplePhoto1, samplePhoto2] none 0 3 0 0 0
      lapSkipState = tickActive 0 3 0 lapSkipState := by
    rw [schedulerTick, if_pos ⟨rfl, by norm_num⟩, hS5]
  have hsa : (tickActive 0 3 0 lapSkipState).sys.systemAngle = 13.5 := by
    simp only [tickActive]
    rw [if_neg hzone, show lapSkipState.sys.systemAngle = (6 : ℝ) from rfl]
    norm_num
  have hlc : (tickActive 0 3 0 lapSkipState).sys.lapCounter =
      lapSkipState.sys.lapCounter + 1 := by
    simp only [tickActive]
    rw [if_neg hzone, show lapSkipState.sys.systemAngle = (6 : ℝ) from rfl,
      show lapSkipState.prevSystemAngle = (6 : ℝ) from rfl,
      show (6 : ℝ) + 2.5 * 3 = 13.5 by norm_num,
      floor_135_div_two_pi, floor_6_div_two_pi, if_pos (by norm_num : (0 : ℤ) < 2)]
  refine ⟨rfl, ?_, ?_, ?_⟩
  · rw [hred]
    exact hsa
  · rw [floor_135_div_two_pi, floor_6_div_two_pi]
    norm_num
  · rw [hred]
    exact hlc

/-- C7: at a COOLDOWN→ACTIVE transition (ASSEMBLED, time past cooldownUntil, at
least 2 candidates after excluding the focused item, distinct pool ids), exactly
two participants are created with distinct ids drawn from the candidate pool,
angular offsets 0 and π, launch times time and time + 0.7 (a stagger of exactly
0.7), and each one's originalSlotAngle equal to the atan2 polar angle of its
assembled tree position. -/
theorem cooldown_launch_two (photos : List PhotoData) (focusId : Option String)
    (time delta spin : ℝ) (idx1 : ℕ) (theta0 : ℝ) (s : SchedState)
    (hphase : s.sys.phase = SchedPhase.COOLDOWN)
    (hlen : 2 ≤ photos.length)
    (htime : s.sys.cooldownUntil < time)
    (hnodup : (photos.map (fun p => p.id)).Nodup)
    (hcand : 2 ≤ (photos.filter (fun p => focusId ≠ some p.id)).length)
    (hidx : idx1 < (photos.filter (fun p => focusId ≠ some p.id)).length) :
    ∃ p1 p2 : PhotoData,
      p1 ∈ photos.filter (fun p => focusId ≠ some p.id) ∧
      p2 ∈ photos.filter (fun p => focusId ≠ some p.id) ∧
      p1.id ≠ p2.id ∧
      (schedulerTick AppMode.ASSEMBLED photos focusId time delta spin idx1 theta0
          s).sys.active =
        [{ id := p1.id, offsetAngle := 0, launchTime := time, hasPresented := false
           originalSlotAngle := atan2 p1.treePosition.1 p1.treePosition.2.2 },
         { id := p2.id, offsetAngle := π, launchTime := time + 0.7, hasPresented := false
           originalSlotAngle := atan2 p2.treePosition.1 p2.treePosition.2.2 }] := by
  classical
  have hred : schedulerTick AppMode.ASSEMBLED photos focusId time delta spin idx1 theta0 s =
      tickCooldown photos focusId time idx1 theta0 s := by
    rw [schedulerTick, if_pos ⟨rfl, hlen⟩, hphase]
  rw [hred]
  simp only [tickCooldown]
  rw [if_pos htime, if_pos hcand]
  set cnd := photos.filter (fun p => focusId ≠ some p.id) with hcnd
  have hn : 0 < cnd.length := by omega
  set i2 := if idx1 = (idx1 + cnd.length / 2) % cnd.length then (idx1 + 1) % cnd.length
    else (idx1 + cnd.length / 2) % cnd.length with hi2
  have hi2lt : i2 < cnd.length := by
    rw [hi2]
    split_ifs
    · exact Nat.mod_lt _ hn
    · exact Nat.mod_lt _ hn
  have hne12 : idx1 ≠ i2 := by
    rw [hi2]
    split_ifs with he
    · intro hco
      rcases Nat.lt_or_ge (idx1 + 1) cnd.length with hlt | hge
      · rw [Nat.mod_eq_of_lt hlt] at hco
        omega
      · have hEq : idx1 + 1 = cnd.length := by omega
        rw [hEq, Nat.mod_self] at hco
        omega
    · exact he
  have hcndsub : cnd.Sublist photos := by
    rw [hcnd]
    exact List.filter_sublist photos
  have hcndnodup : (cnd.map (fun p => p.id)).Nodup :=
    List.Nodup.sublist (List.Sublist.map _ hcndsub) hnodup
  have hilen : idx1 < (cnd.map (fun p => p.id)).length := by
    rw [List.length_map]
    exact hidx
  have hjlen : i2 < (cnd.map (fun p => p.id)).length := by
    rw [List.length_map]
    exact hi2lt
  have hids : (cnd.getD idx1 default).id ≠ (cnd.getD i2 default).id := by
    rw [List.getD_eq_getElem cnd default hidx, List.getD_eq_getElem cnd default hi2lt]
    intro hco
    apply hne12
    have hmapeq : (cnd.map (fun p => p.id))[idx1] = (cnd.map (fun p => p.id))[i2] := by
      rw [List.getElem_map, List.getElem_map]
      exact hco
    exact (List.Nodup.getElem_inj_iff hcndnodup).1 hmapeq
  refine ⟨cnd.getD idx1 default, cnd.getD i2 default, ?_, ?_, hids, ?_⟩
  · rw [List.getD_eq_getElem cnd default hidx]
    exact List.getElem_mem hidx
  · rw [List.getD_eq_getElem cnd default hi2lt]
    exact List.getElem_mem hi2lt
  · show mkShowcaseActive (cnd.getD idx1 default) (cnd.getD i2 default) time = _
    simp only [mkShowcaseActive]
    rw [if_neg hids]

theorem cooldown_launch_two_witness :
    initialSchedState.sys.cooldownUntil < 7 ∧
    (∃ p1 p2 : PhotoData,
      p1 ∈ [samplePhoto1, samplePhoto2].filter (fun p => (none : Option String) ≠ some p.id) ∧
      p2 ∈ [samplePhoto1, samplePhoto2].filter (fun p => (none : Option String) ≠ some p.id) ∧
      p1.id ≠ p2.id ∧
      (schedulerTick AppMode.ASSEMBLED [samplePhoto1, samplePhoto2] none 7 1 0 0 0
          initialSchedState).sys.active =
        [{ id := p1.id, offsetAngle := 0, launchTime := 7, hasPresented := false
           originalSlotAngle := atan2 p1.treePosition.1 p1.treePosition.2.2 },
         { id := p2.id, offsetAngle := π, launchTime := 7 + 0.7, hasPresented := false
           originalSlotAngle := atan2 p2.treePosition.1 p2.treePosition.2.2 }]) := by
  refine ⟨by norm_num [initialSchedState], ?_⟩
  exact cooldown_launch_two [samplePhoto1, samplePhoto2] none 7 1 0 0 0 initialSchedState
    rfl (by norm_num) (by norm_num [initialSchedState]) (by decide) (by decide) (by decide)

lemma cexSched_eval :
    schedulerTick AppMode.ASSEMBLED [samplePhoto1, samplePhoto2] none 0 0 0 0 0
        cexSchedState =
      { sys :=
          { active := [cexPartB]
            systemAngle := 0
            phase := SchedPhase.ACTIVE
            cooldownUntil := 6
            lapCounter := 5 }
        prevSystemAngle := 0 } := by
  classical
  have hA1 : cexPartA.hasPresented = true := rfl
  have hA2 : cexPartA.offsetAngle = 0 := rfl
  have hA3 : cexPartA.launchTime = 0 := rfl
  have hA4 : cexPartA.originalSlotAngle = 0 := rfl
  have hB1 : cexPartB.hasPresented = false := rfl
  have hB2 : cexPartB.offsetAngle = π := rfl
  have hB3 : cexPartB.launchTime = 0 := rfl
  have hB4 : cexPartB.originalSlotAngle = 0 := rfl
  have hS1 : cexSchedState.sys.active = [cexPartA, cexPartB] := rfl
  have hS2 : cexSchedState.sys.systemAngle = 0 := rfl
  have hS3 : cexSchedState.sys.lapCounter = 5 := rfl
  have hS4 : cexSchedState.prevSystemAngle = 0 := rfl
  have hS5 : cexSchedState.sys.phase = SchedPhase.ACTIVE := rfl
  have hS6 : cexSchedState.sys.cooldownUntil = 6 := rfl
  have hzF : zoneOf 0 5 0 [cexPartA, cexPartB] = False := by
    refine eq_false ?_
    rintro ⟨p, hp, -, hd, -⟩
    have hp2 : p = cexPartA ∨ p = cexPartB := by simpa using hp
    rcases hp2 with rfl | rfl
    · rw [hA2, add_zero, presDist_zero] at hd
      linarith [Real.pi_gt_three]
    · rw [hB2, zero_add, presDist_pi] at hd
      linarith [Real.pi_gt_three]
  have hj0 : jmod 0 (2 * π) = 0 := jmod_of_lt le_rfl Real.two_pi_pos
  have hpd : (π / 2 < (0.1 : ℝ)) = False := by
    refine eq_false ?_
    intro h
    linarith [Real.pi_gt_three]
  have h03 : ((0 : ℝ) < 0.3) = True := eq_true (by norm_num)
  have hred : schedulerTick AppMode.ASSEMBLED [samplePhoto1, samplePhoto2] none 0 0 0 0 0
      cexSchedState = tickActive 0 0 0 cexSchedState := by
    rw [schedulerTick, if_pos ⟨rfl, by norm_num⟩, hS5]
  rw [hred]
  simp [tickActive, hS1, hS2, hS3, hS4, hS5, hS6, hA1, hA2, hA3, hA4, hB1, hB2, hB3, hB4,
    hzF, hj0, hpd, h03, presDist_pi, retDiff_zero_zero, List.filter_cons]

/-- C1 counterexample: from an ACTIVE scheduler state holding exactly two
participants (a state allowed by the claimed invariant), one ASSEMBLED tick removes
only the realigned, already-presented participant and keeps the other, leaving
phase ACTIVE with a single active participant — cardinality 1, neither 0 nor 2. -/
theorem scheduler_card_cex :
    cexSchedState.sys.phase = SchedPhase.ACTIVE ∧
    cexSchedState.sys.active.length = 2 ∧
    (schedulerTick AppMode.ASSEMBLED [samplePhoto1, samplePhoto2] none 0 0 0 0 0
        cexSchedState).sys.phase = SchedPhase.ACTIVE ∧
    (schedulerTick AppMode.ASSEMBLED [samplePhoto1, samplePhoto2] none 0 0 0 0 0
        cexSchedState).sys.active.length = 1 ∧
    ¬((schedulerTick AppMode.ASSEMBLED [samplePhoto1, samplePhoto2] none 0 0 0 0 0
          cexSchedState).sys.active.length = 0 ∨
      (schedulerTick AppMode.ASSEMBLED [samplePhoto1, samplePhoto2] none 0 0 0 0 0
          cexSchedState).sys.active.length = 2) := by
  refine ⟨rfl, rfl, ?_, ?_, ?_⟩
  · rw [cexSched_eval]
  · rw [cexSched_eval]
    rfl
  · rw [cexSched_eval]
    simp
